import Mathlib

/-!
Shallow embedding of the `genai_job_finder` data-cleaning and persistence
core (Python), together with proofs checking the natural-language
specification against it.

The definitions mirror, function by function, the following source files:
- `genai_job_finder/data_cleaner/models.py`
- `genai_job_finder/data_cleaner/nodes/{employment_validation,location_validation,salary_extraction,experience_extraction}.py`
- `genai_job_finder/data_cleaner/chains/{salary_extraction,location_validation}.py`
- `genai_job_finder/data_cleaner/graph.py`
- `genai_job_finder/linkedin_parser/database.py`
- `genai_job_finder/linkedin_parser/company_enrichment.py`

Machine floats only ever hold exact decimal salary figures here, so they are
modelled by `ℚ`; Python exceptions are modelled by `Except`; the external
LLM calls are modelled as explicit `Except`-valued inputs to the node
functions (the node cannot observe anything about the LLM other than its
returned value or the exception it raised).
-/

namespace GenaiJobFinder

/-! ## Python string primitives used by the sources -/

/-- Characters treated as whitespace by Python's `str.strip` (and by `\s`
for the ASCII inputs involved here). -/
def isPySpace (c : Char) : Bool :=
  c == ' ' || c == '\t' || c == '\n' || c == '\r' || c == '\x0b' || c == '\x0c'

/-- Embeds `str.lower` on a character list (ASCII inputs). -/
def lowerCL (l : List Char) : List Char := l.map Char.toLower

/-- Embeds `str.upper` on a character list (ASCII inputs). -/
def upperCL (l : List Char) : List Char := l.map Char.toUpper

/-- Embeds `str.strip` on a character list. -/
def stripCL (l : List Char) : List Char :=
  ((l.dropWhile isPySpace).reverse.dropWhile isPySpace).reverse

/-- Substring test (`pat in s` for Python strings), on character lists. -/
def isInfixOfCL (pat : List Char) : List Char → Bool
  | [] => pat.isPrefixOf ([] : List Char)
  | c :: rest => pat.isPrefixOf (c :: rest) || isInfixOfCL pat rest

/-- Embeds `str.strip` on strings. -/
def stripS (s : String) : String := String.mk (stripCL s.toList)

/-- Embeds `str.lower` on strings. -/
def lowerS (s : String) : String := String.mk (lowerCL s.toList)

/-- Embeds `str.upper` on strings. -/
def upperS (s : String) : String := String.mk (upperCL s.toList)

/-- Python `pat in s` on strings. -/
def containsS (s pat : String) : Bool := isInfixOfCL pat.toList s.toList

/-- Embeds `str.split('\n')` on character lists. -/
def splitNewlineCL : List Char → List (List Char)
  | [] => [[]]
  | c :: rest =>
    if c = '\n' then [] :: splitNewlineCL rest
    else
      match splitNewlineCL rest with
      | h :: t => (c :: h) :: t
      | [] => [[c]]

/-- Embeds `str.split('\n')` on strings. -/
def pySplitNewline (s : String) : List String := (splitNewlineCL s.toList).map String.mk

/-! ## `data_cleaner/models.py` -/

/-- Embeds `ExperienceLevel` enum (`models.py`). -/
inductive ExperienceLevel
  | ENTRY_LEVEL | JUNIOR | ASSOCIATE | MID | SENIOR | STAFF_PRINCIPAL | DIRECTOR_EXECUTIVE
  deriving DecidableEq, Repr

/-- The integer `value` of each `ExperienceLevel` member (0‥6, in the
declaration order of `models.py`). -/
def ExperienceLevel.value : ExperienceLevel → ℕ
  | .ENTRY_LEVEL => 0
  | .JUNIOR => 1
  | .ASSOCIATE => 2
  | .MID => 3
  | .SENIOR => 4
  | .STAFF_PRINCIPAL => 5
  | .DIRECTOR_EXECUTIVE => 6

/-- Embeds `ExperienceLevel.from_years` (`models.py`).  Callers only ever pass the
non-negative result of the experience chain, hence `ℕ`. -/
def ExperienceLevel.fromYears (years : ℕ) : ExperienceLevel :=
  if years = 0 then .ENTRY_LEVEL
  else if years = 1 then .JUNIOR
  else if years ≤ 3 then .ASSOCIATE
  else if years ≤ 5 then .MID
  else if years ≤ 8 then .SENIOR
  else if years ≤ 12 then .STAFF_PRINCIPAL
  else .DIRECTOR_EXECUTIVE

/-- Embeds `ExperienceLevel.get_label` (`models.py`). -/
def ExperienceLevel.getLabel : ExperienceLevel → String
  | .ENTRY_LEVEL => "Entry level"
  | .JUNIOR => "Junior"
  | .ASSOCIATE => "Associate/Early career"
  | .MID => "Mid-level"
  | .SENIOR => "Senior"
  | .STAFF_PRINCIPAL => "Staff/Principal/Lead"
  | .DIRECTOR_EXECUTIVE => "Director/VP/Executive"

/-- Embeds `WorkLocationType` enum (`models.py`). -/
inductive WorkLocationType
  | REMOTE | HYBRID | ON_SITE | UNKNOWN
  deriving DecidableEq, Repr

/-- Embeds `EmploymentType` enum (`models.py`).  Note that the enum has **no**
`TEMPORARY` member — `map_to_employment_type` nevertheless references one. -/
inductive EmploymentType
  | FULL_TIME | PART_TIME | CONTRACT | INTERNSHIP | UNKNOWN
  deriving DecidableEq, Repr

/-- Embeds `SalaryRange` dataclass (`models.py`).  Salaries are exact decimals,
modelled by `ℚ`. -/
structure SalaryRange where
  min_salary : Option ℚ
  max_salary : Option ℚ
  mid_salary : Option ℚ
  currency : String
  period : String
  deriving DecidableEq, Repr

/-- Construction of a `SalaryRange`, i.e. the dataclass constructor followed
by `SalaryRange.__post_init__`: whenever both bounds are present the mid
salary is (re)computed as their arithmetic mean. -/
def SalaryRange.make (mn mx mid : Option ℚ) (currency period : String) : SalaryRange :=
  match mn, mx with
  | some a, some b => ⟨some a, some b, some ((a + b) / 2), currency, period⟩
  | _, _ => ⟨mn, mx, mid, currency, period⟩

/-! ## C6: `ExperienceLevel.from_years` band structure -/

/-- Modelled from the spec's words (§4.6 / §8): the seven experience bands
`0→Entry, 1→Junior, 2–3→Associate, 4–5→Mid, 6–8→Senior, 9–12→Staff/Principal,
13+→Director/Executive`, used as the refinement target for `fromYears`. -/
def specBand (years : ℕ) : ExperienceLevel :=
  if years = 0 then .ENTRY_LEVEL
  else if years = 1 then .JUNIOR
  else if 2 ≤ years ∧ years ≤ 3 then .ASSOCIATE
  else if 4 ≤ years ∧ years ≤ 5 then .MID
  else if 6 ≤ years ∧ years ≤ 8 then .SENIOR
  else if 9 ≤ years ∧ years ≤ 12 then .STAFF_PRINCIPAL
  else .DIRECTOR_EXECUTIVE

theorem fromYears_eq_specBand (n : ℕ) : ExperienceLevel.fromYears n = specBand n := by
  unfold ExperienceLevel.fromYears specBand
  split_ifs <;> first | rfl | omega

theorem fromYears_value_monotone :
    Monotone (fun n => (ExperienceLevel.fromYears n).value) := by
  intro m n h
  unfold ExperienceLevel.fromYears
  dsimp only
  split_ifs <;> simp [ExperienceLevel.value] <;> omega

/-- C6: `ExperienceLevel.from_years` is total (it is a Lean function on `ℕ`),
order-preserving in the enum's declared order, maps each year count to the
spec's seven bands, keeps the label constant within a band (a consequence of
the band refinement), and changes at each boundary 0, 1, 2, 4, 6, 9, 13. -/
theorem C6_fromYears_bands :
    (∀ n, ExperienceLevel.fromYears n = specBand n) ∧
    (Monotone fun n => (ExperienceLevel.fromYears n).value) ∧
    ((ExperienceLevel.fromYears 0 = .ENTRY_LEVEL) ∧
     (ExperienceLevel.fromYears 1 = .JUNIOR) ∧
     (∀ n, 2 ≤ n → n ≤ 3 → ExperienceLevel.fromYears n = .ASSOCIATE) ∧
     (∀ n, 4 ≤ n → n ≤ 5 → ExperienceLevel.fromYears n = .MID) ∧
     (∀ n, 6 ≤ n → n ≤ 8 → ExperienceLevel.fromYears n = .SENIOR) ∧
     (∀ n, 9 ≤ n → n ≤ 12 → ExperienceLevel.fromYears n = .STAFF_PRINCIPAL) ∧
     (∀ n, 13 ≤ n → ExperienceLevel.fromYears n = .DIRECTOR_EXECUTIVE)) ∧
    (∀ m n, ExperienceLevel.fromYears m = ExperienceLevel.fromYears n →
      (ExperienceLevel.fromYears m).getLabel = (ExperienceLevel.fromYears n).getLabel) ∧
    ((ExperienceLevel.fromYears 1 ≠ ExperienceLevel.fromYears 0) ∧
     (ExperienceLevel.fromYears 2 ≠ ExperienceLevel.fromYears 1) ∧
     (ExperienceLevel.fromYears 4 ≠ ExperienceLevel.fromYears 3) ∧
     (ExperienceLevel.fromYears 6 ≠ ExperienceLevel.fromYears 5) ∧
     (ExperienceLevel.fromYears 9 ≠ ExperienceLevel.fromYears 8) ∧
     (ExperienceLevel.fromYears 13 ≠ ExperienceLevel.fromYears 12)) := by
  refine ⟨fromYears_eq_specBand, fromYears_value_monotone, ?_, ?_, ?_⟩
  · refine ⟨by decide, by decide, ?_, ?_, ?_, ?_, ?_⟩
    · intro n h1 h2; unfold ExperienceLevel.fromYears; split_ifs <;> first | rfl | omega
    · intro n h1 h2; unfold ExperienceLevel.fromYears; split_ifs <;> first | rfl | omega
    · intro n h1 h2; unfold ExperienceLevel.fromYears; split_ifs <;> first | rfl | omega
    · intro n h1 h2; unfold ExperienceLevel.fromYears; split_ifs <;> first | rfl | omega
    · intro n h1; unfold ExperienceLevel.fromYears; split_ifs <;> first | rfl | omega
  · intro m n h
    rw [h]
  · refine ⟨by decide, by decide, by decide, by decide, by decide, by decide⟩

/-- Witness for `C6_fromYears_bands`: instantiating the banded clauses at
concrete year counts. -/
theorem C6_fromYears_bands_witness :
    ExperienceLevel.fromYears 3 = .ASSOCIATE ∧
    ExperienceLevel.fromYears 7 = .SENIOR ∧
    ExperienceLevel.fromYears 40 = .DIRECTOR_EXECUTIVE := by
  refine ⟨C6_fromYears_bands.2.2.1.2.2.1 3 (by decide) (by decide),
          C6_fromYears_bands.2.2.1.2.2.2.2.1 7 (by decide) (by decide),
          C6_fromYears_bands.2.2.1.2.2.2.2.2.2 40 (by decide)⟩

/-! ## `chains/salary_extraction.py`: `SalaryOutputParser` (LLM-fallback parser) -/

/-- Value of a decimal digit list (most significant first). -/
def digitsToNat (l : List Char) : ℕ :=
  l.foldl (fun acc c => acc * 10 + (c.toNat - 48)) 0

/-- Embeds `re.sub(r'[^\d.]', '', value)`: keep only digits and dots. -/
def keepDigitsDot (s : String) : String :=
  String.mk (s.toList.filter fun c => c.isDigit || c == '.')

/-- Python `float(...)` on a string made of digits and dots only (the shape
produced by `keepDigitsDot`): accepts at most one dot and at least one digit,
returns `none` where Python raises `ValueError`. -/
def pyFloatDigitsDot (s : String) : Option ℚ :=
  let cs := s.toList
  if cs.all (fun c => c.isDigit || c == '.') && decide (cs.count '.' ≤ 1) && cs.any Char.isDigit then
    let ip := cs.takeWhile (· ≠ '.')
    let fp := (cs.dropWhile (· ≠ '.')).drop 1
    some ((digitsToNat ip : ℚ) + (digitsToNat fp : ℚ) / (10 : ℚ) ^ fp.length)
  else none

/-- Embeds `line.split(":", 1)[1]`: everything after the first colon. -/
def afterColon (s : String) : String :=
  String.mk ((s.toList.dropWhile (· ≠ ':')).drop 1)

/-- The four fields accumulated by `SalaryOutputParser.parse`'s line loop. -/
structure ParsedSalaryFields where
  mn : Option ℚ
  mx : Option ℚ
  cur : String
  per : String

/-- Embeds `value.lower() in ["null", "none", ""]`. -/
def isNullish (v : String) : Bool :=
  lowerS v == "null" || lowerS v == "none" || lowerS v == ""

/-- One iteration of `SalaryOutputParser.parse`'s `for line in lines` loop;
`none` models a `ValueError` escaping to the surrounding `except`. -/
def salaryParseStep (f : ParsedSalaryFields) (line : String) : Option ParsedSalaryFields :=
  if ("MIN_SALARY:".toList).isPrefixOf line.toList then
    if isNullish (stripS (afterColon line)) then some f
    else match pyFloatDigitsDot (keepDigitsDot (stripS (afterColon line))) with
      | some q => some { f with mn := some q }
      | none => none
  else if ("MAX_SALARY:".toList).isPrefixOf line.toList then
    if isNullish (stripS (afterColon line)) then some f
    else match pyFloatDigitsDot (keepDigitsDot (stripS (afterColon line))) with
      | some q => some { f with mx := some q }
      | none => none
  else if ("CURRENCY:".toList).isPrefixOf line.toList then
    if isNullish (stripS (afterColon line)) then some f
    else some { f with cur := upperS (stripS (afterColon line)) }
  else if ("PERIOD:".toList).isPrefixOf line.toList then
    if isNullish (stripS (afterColon line)) then some f
    else some { f with per := lowerS (stripS (afterColon line)) }
  else some f

/-- Embeds `SalaryOutputParser.parse` (`chains/salary_extraction.py`): strip the
text, split into non-empty stripped lines, accumulate the four labelled
fields, and build a `SalaryRange` when at least one bound was found.  Any
`ValueError` is caught and yields `None`. -/
def salaryLines (text : String) : List String :=
  ((pySplitNewline (stripS text)).map stripS).filter (· ≠ "")

def SalaryOutputParser.parse (text : String) : Option SalaryRange :=
  match (salaryLines text).foldlM salaryParseStep ⟨none, none, "USD", "yearly"⟩ with
  | some f =>
    if f.mn.isSome || f.mx.isSome then
      some (SalaryRange.make f.mn f.mx none f.cur f.per)
    else none
  | none => none

/-! ## C4: the mid-salary invariant -/

theorem make_some_some (a b : ℚ) (mid : Option ℚ) (c p : String) :
    SalaryRange.make (some a) (some b) mid c p = ⟨some a, some b, some ((a + b) / 2), c, p⟩ :=
  rfl

theorem make_min_max (mn mx mid : Option ℚ) (c p : String) :
    (SalaryRange.make mn mx mid c p).min_salary = mn ∧
    (SalaryRange.make mn mx mid c p).max_salary = mx := by
  unfold SalaryRange.make
  rcases mn with _ | a <;> rcases mx with _ | b <;> simp

theorem make_mid (mn mx mid : Option ℚ) (c p : String) (a b : ℚ)
    (hmn : mn = some a) (hmx : mx = some b) :
    (SalaryRange.make mn mx mid c p).mid_salary = some ((a + b) / 2) := by
  subst hmn hmx
  rfl

theorem parse_builds (text : String) (r : SalaryRange)
    (h : SalaryOutputParser.parse text = some r) :
    ∃ mn mx c p, r = SalaryRange.make mn mx none c p := by
  unfold SalaryOutputParser.parse at h
  rcases hf : ((salaryLines text).foldlM salaryParseStep ⟨none, none, "USD", "yearly"⟩) with _ | f
  · rw [hf] at h; exact absurd h (by simp)
  · rw [hf] at h
    dsimp only at h
    split_ifs at h
    exact ⟨f.mn, f.mx, f.cur, f.per, (Option.some_injective _ h).symm⟩

/-- C4: every `SalaryRange` whose two bounds are present has
`mid_salary = (min_salary + max_salary) / 2` at construction — both for the
dataclass constructor (`__post_init__`) and for every range built by the
LLM-fallback `SalaryOutputParser.parse`. -/
theorem C4_mid_salary_invariant :
    (∀ (a b : ℚ) (mid : Option ℚ) (c p : String),
      (SalaryRange.make (some a) (some b) mid c p).mid_salary = some ((a + b) / 2)) ∧
    (∀ (text : String) (r : SalaryRange) (a b : ℚ),
      SalaryOutputParser.parse text = some r →
      r.min_salary = some a → r.max_salary = some b →
      r.mid_salary = some ((a + b) / 2)) := by
  constructor
  · intro a b mid c p
    rfl
  · intro text r a b hparse hmin hmax
    obtain ⟨mn, mx, c, p, rfl⟩ := parse_builds text r hparse
    obtain ⟨h1, h2⟩ := make_min_max mn mx none c p
    exact make_mid mn mx none c p a b (h1 ▸ hmin) (h2 ▸ hmax)

theorem pyFloat_digits (s : String) (hd : s.toList.all Char.isDigit = true)
    (hne : s.toList ≠ []) :
    pyFloatDigitsDot s = some ((digitsToNat s.toList : ℕ) : ℚ) := by
  have hdot : ∀ c ∈ s.toList, (c ≠ '.') := by
    intro c hc h
    have hcd := List.all_eq_true.1 hd c hc
    rw [h] at hcd
    exact absurd hcd (by decide)
  unfold pyFloatDigitsDot
  rw [if_pos]
  · have htw : s.toList.takeWhile (fun c => decide (c ≠ '.')) = s.toList :=
      List.takeWhile_eq_self_iff.2 (fun c hc => decide_eq_true (hdot c hc))
    have hdw : s.toList.dropWhile (fun c => decide (c ≠ '.')) = [] :=
      List.dropWhile_eq_nil_iff.2 (fun c hc => decide_eq_true (hdot c hc))
    rw [show ((s.toList.takeWhile (· ≠ '.')) = s.toList) from htw,
        show ((s.toList.dropWhile (· ≠ '.')) = []) from hdw]
    simp [digitsToNat]
  · simp only [Bool.and_eq_true]
    refine ⟨⟨?_, ?_⟩, ?_⟩
    · exact List.all_eq_true.2 fun c hc => by
        simp [List.all_eq_true.1 hd c hc]
    · have hc0 : s.toList.count '.' = 0 :=
        List.count_eq_zero.2 fun hc => (hdot '.' hc) rfl
      exact decide_eq_true (hc0.trans_le (by omega))
    · obtain ⟨c, hc⟩ := List.exists_mem_of_ne_nil s.toList hne
      exact List.any_eq_true.2 ⟨c, hc, List.all_eq_true.1 hd c hc⟩

/-- Witness for `C4_mid_salary_invariant`: a concrete LLM reply parsed by the
fallback parser yields mid = (90000 + 130000) / 2 = 110000. -/
theorem C4_mid_salary_invariant_witness :
    SalaryOutputParser.parse "MIN_SALARY: 90000\nMAX_SALARY: 130000\nCURRENCY: USD\nPERIOD: yearly"
      = some ⟨some 90000, some 130000, some 110000, "USD", "yearly"⟩ ∧
    (some 110000 : Option ℚ) = some (((90000 : ℚ) + 130000) / 2) := by
  have hf1 : pyFloatDigitsDot "90000" = some (90000 : ℚ) := by
    rw [pyFloat_digits "90000" (by decide) (by decide),
        show digitsToNat "90000".toList = 90000 from by decide]
    norm_num
  have hf2 : pyFloatDigitsDot "130000" = some (130000 : ℚ) := by
    rw [pyFloat_digits "130000" (by decide) (by decide),
        show digitsToNat "130000".toList = 130000 from by decide]
    norm_num
  have e1 : salaryParseStep ⟨none, none, "USD", "yearly"⟩ "MIN_SALARY: 90000"
      = some ⟨some (90000 : ℚ), none, "USD", "yearly"⟩ := by
    unfold salaryParseStep
    rw [if_pos (by decide), if_neg (by decide),
        show keepDigitsDot (stripS (afterColon "MIN_SALARY: 90000")) = "90000" from by decide,
        hf1]
  have e2 : salaryParseStep ⟨some (90000 : ℚ), none, "USD", "yearly"⟩ "MAX_SALARY: 130000"
      = some ⟨some (90000 : ℚ), some (130000 : ℚ), "USD", "yearly"⟩ := by
    unfold salaryParseStep
    rw [if_neg (by decide), if_pos (by decide), if_neg (by decide),
        show keepDigitsDot (stripS (afterColon "MAX_SALARY: 130000")) = "130000" from by decide,
        hf2]
  have e3 : salaryParseStep ⟨some (90000 : ℚ), some (130000 : ℚ), "USD", "yearly"⟩ "CURRENCY: USD"
      = some ⟨some (90000 : ℚ), some (130000 : ℚ), "USD", "yearly"⟩ := by
    unfold salaryParseStep
    rw [if_neg (by decide), if_neg (by decide), if_pos (by decide), if_neg (by decide)]
    rfl
  have e4 : salaryParseStep ⟨some (90000 : ℚ), some (130000 : ℚ), "USD", "yearly"⟩ "PERIOD: yearly"
      = some ⟨some (90000 : ℚ), some (130000 : ℚ), "USD", "yearly"⟩ := by
    unfold salaryParseStep
    rw [if_neg (by decide), if_neg (by decide), if_neg (by decide), if_pos (by decide),
        if_neg (by decide)]
    rfl
  have hlines : salaryLines "MIN_SALARY: 90000\nMAX_SALARY: 130000\nCURRENCY: USD\nPERIOD: yearly"
      = ["MIN_SALARY: 90000", "MAX_SALARY: 130000", "CURRENCY: USD", "PERIOD: yearly"] := by
    decide
  have hmean : ((90000 : ℚ) + 130000) / 2 = 110000 := by norm_num
  constructor
  · unfold SalaryOutputParser.parse
    rw [hlines]
    simp only [List.foldlM_cons, List.foldlM_nil, e1, e2, e3, e4, Option.bind_eq_bind,
      Option.some_bind]
    rw [if_pos (by decide), make_some_some, hmean]
  · exact C4_mid_salary_invariant.2
      "MIN_SALARY: 90000\nMAX_SALARY: 130000\nCURRENCY: USD\nPERIOD: yearly"
      ⟨some 90000, some 130000, some 110000, "USD", "yearly"⟩ 90000 130000
      (by
        unfold SalaryOutputParser.parse
        rw [hlines]
        simp only [List.foldlM_cons, List.foldlM_nil, e1, e2, e3, e4, Option.bind_eq_bind,
          Option.some_bind]
        rw [if_pos (by decide), make_some_some, hmean])
      rfl rfl

/-! ## `chains/salary_extraction.py`: `_extract_salary_with_regex`

The six source regexes are embedded as character-list matchers.  Each matcher
is written greedily without backtracking; this is equivalent to Python's
backtracking search for these particular patterns, because after shortening
any greedy sub-match (`\d{1,3}`, `(?:,\d{3})*`, `(?:\.\d{2})?`, `k?`) the
next character seen by the remainder of the pattern would be a digit, a
comma, a dot or a `k` — none of which the following pattern pieces accept.
The trailing optional `(?:per\s+year|annually|/year)?` pieces are omitted:
being optional and final, they never affect whether a match exists nor what
the two groups capture. -/

/-- Embeds `\d{1,3}`, greedy. -/
def take13Digits : List Char → Option (List Char × List Char)
  | [] => none
  | c1 :: rest =>
    if c1.isDigit then
      match rest with
      | c2 :: rest2 =>
        if c2.isDigit then
          match rest2 with
          | c3 :: rest3 =>
            if c3.isDigit then some ([c1, c2, c3], rest3) else some ([c1, c2], rest2)
          | [] => some ([c1, c2], [])
        else some ([c1], rest)
      | [] => some ([c1], [])
    else none

/-- Embeds `(?:,\d{3})*`, greedy. -/
def takeCommaGroups : List Char → List Char × List Char
  | ',' :: a :: b :: c :: rest =>
    if a.isDigit && b.isDigit && c.isDigit then
      match takeCommaGroups rest with
      | (g, r) => (',' :: a :: b :: c :: g, r)
    else ([], ',' :: a :: b :: c :: rest)
  | l => ([], l)

/-- Embeds `(?:\.\d{2})?`, greedy. -/
def takeCents : List Char → List Char × List Char
  | '.' :: a :: b :: rest =>
    if a.isDigit && b.isDigit then (['.', a, b], rest) else ([], '.' :: a :: b :: rest)
  | l => ([], l)

/-- A captured number group `\d{1,3}(?:,\d{3})*` with (for the patterns that
allow cents) an optional `(?:\.\d{2})?`. -/
def takeNumber (allowCents : Bool) (l : List Char) : Option (List Char × List Char) :=
  match take13Digits l with
  | none => none
  | some (d, r) =>
    match takeCommaGroups r with
    | (g, r2) =>
      if allowCents then
        match takeCents r2 with
        | (c, r3) => some (d ++ g ++ c, r3)
      else some (d ++ g, r2)

/-- Embeds `\s*`. -/
def dropSpacesCL (l : List Char) : List Char := l.dropWhile isPySpace

/-- One literal character under `re.IGNORECASE`. -/
def expectCharCI (c : Char) : List Char → Option (List Char)
  | [] => none
  | x :: rest => if x.toLower == c then some rest else none

/-- A literal string under `re.IGNORECASE`. -/
def expectStrCI : List Char → List Char → Option (List Char)
  | [], l => some l
  | c :: pr, l =>
    match expectCharCI c l with
    | none => none
    | some r => expectStrCI pr r

/-- Embeds `k?` under `re.IGNORECASE`, greedy. -/
def dropOptionalK : List Char → List Char
  | [] => []
  | x :: rest => if x.toLower == 'k' then rest else x :: rest

/-- Pattern 1: `\$(\d{1,3}(?:,\d{3})*(?:\.\d{2})?)\s*-\s*\$(…)`. -/
def matchP1At (l : List Char) : Option (List Char × List Char) := do
  let r1 ← expectCharCI '$' l
  let (g1, r2) ← takeNumber true r1
  let r3 ← expectCharCI '-' (dropSpacesCL r2)
  let r4 ← expectCharCI '$' (dropSpacesCL r3)
  let (g2, _) ← takeNumber true r4
  pure (g1, g2)

/-- Pattern 2: `\$(…)\s*to\s*\$(…)` with cents. -/
def matchP2At (l : List Char) : Option (List Char × List Char) := do
  let r1 ← expectCharCI '$' l
  let (g1, r2) ← takeNumber true r1
  let r3 ← expectStrCI "to".toList (dropSpacesCL r2)
  let r4 ← expectCharCI '$' (dropSpacesCL r3)
  let (g2, _) ← takeNumber true r4
  pure (g1, g2)

/-- Pattern 3: `\$(\d{1,3}(?:,\d{3})*)\s*k?\s*to\s*\$(…)\s*k?\s*(?:…)?`. -/
def matchP3At (l : List Char) : Option (List Char × List Char) := do
  let r1 ← expectCharCI '$' l
  let (g1, r2) ← takeNumber false r1
  let r3 ← expectStrCI "to".toList (dropSpacesCL (dropOptionalK (dropSpacesCL r2)))
  let r4 ← expectCharCI '$' (dropSpacesCL r3)
  let (g2, _) ← takeNumber false r4
  pure (g1, g2)

/-- Pattern 4: `(\d{1,3}(?:,\d{3})*)\s*k\s*-\s*(…)\s*k\s*(?:…)?`. -/
def matchP4At (l : List Char) : Option (List Char × List Char) := do
  let (g1, r1) ← takeNumber false l
  let r2 ← expectCharCI 'k' (dropSpacesCL r1)
  let r3 ← expectCharCI '-' (dropSpacesCL r2)
  let (g2, r4) ← takeNumber false (dropSpacesCL r3)
  let _ ← expectCharCI 'k' (dropSpacesCL r4)
  pure (g1, g2)

/-- Pattern 5: `(\d{1,3}(?:,\d{3})*)\s*k\s*to\s*(…)\s*k\s*(?:…)?`. -/
def matchP5At (l : List Char) : Option (List Char × List Char) := do
  let (g1, r1) ← takeNumber false l
  let r2 ← expectCharCI 'k' (dropSpacesCL r1)
  let r3 ← expectStrCI "to".toList (dropSpacesCL r2)
  let (g2, r4) ← takeNumber false (dropSpacesCL r3)
  let _ ← expectCharCI 'k' (dropSpacesCL r4)
  pure (g1, g2)

/-- Pattern 6: `\$(…)/yr\s*-\s*\$(…)/yr` with cents. -/
def matchP6At (l : List Char) : Option (List Char × List Char) := do
  let r1 ← expectCharCI '$' l
  let (g1, r2) ← takeNumber true r1
  let r3 ← expectStrCI "/yr".toList r2
  let r4 ← expectCharCI '-' (dropSpacesCL r3)
  let r5 ← expectCharCI '$' (dropSpacesCL r4)
  let (g2, r6) ← takeNumber true r5
  let _ ← expectStrCI "/yr".toList r6
  pure (g1, g2)

/-- Embeds `re.findall(pattern, content)[0]`: leftmost match of one pattern. -/
def findFirstMatchAux (pat : List Char → Option (List Char × List Char)) :
    List Char → Option (List Char × List Char)
  | [] => pat []
  | c :: rest =>
    match pat (c :: rest) with
    | some g => some g
    | none => findFirstMatchAux pat rest

/-- The six patterns, in the order they are tried by the source. -/
def salaryPatterns : List (List Char → Option (List Char × List Char)) :=
  [matchP1At, matchP2At, matchP3At, matchP4At, matchP5At, matchP6At]

/-- Embeds `'k' in content.lower()`. -/
def mentionsK (content : String) : Bool := (lowerCL content.toList).contains 'k'

/-- Embeds `float(group.replace(',', ''))` (`none` models `ValueError`). -/
def groupFloat (g : List Char) : Option ℚ :=
  pyFloatDigitsDot (String.mk (g.filter fun c => !(c == ',')))

/-- The `for pattern in patterns` loop body of `_extract_salary_with_regex`:
take the first pattern with a match, convert both groups, apply the `k`
heuristic (`'k' in content.lower() and min_salary < 1000` scales both bounds
by 1000), and build the `SalaryRange`; a `ValueError` falls through to the
next pattern. -/
def extractGo (content : String) :
    List (List Char → Option (List Char × List Char)) → Option SalaryRange
  | [] => none
  | p :: ps =>
    match findFirstMatchAux p content.toList with
    | none => extractGo content ps
    | some (g1, g2) =>
      match groupFloat g1, groupFloat g2 with
      | some mn, some mx =>
        if mentionsK content = true ∧ mn < 1000 then
          some (SalaryRange.make (some (mn * 1000)) (some (mx * 1000)) none "USD" "yearly")
        else
          some (SalaryRange.make (some mn) (some mx) none "USD" "yearly")
      | _, _ => extractGo content ps

/-- Embeds `SalaryExtractionChain._extract_salary_with_regex`. -/
def extractSalaryWithRegex (content : String) : Option SalaryRange :=
  extractGo content salaryPatterns

/-- The two numbers captured by the first matching pattern, before the `k`
heuristic (a companion projection of `extractGo`, used to state C5). -/
def extractGoVals (content : String) :
    List (List Char → Option (List Char × List Char)) → Option (ℚ × ℚ)
  | [] => none
  | p :: ps =>
    match findFirstMatchAux p content.toList with
    | none => extractGoVals content ps
    | some (g1, g2) =>
      match groupFloat g1, groupFloat g2 with
      | some mn, some mx => some (mn, mx)
      | _, _ => extractGoVals content ps

/-- The two matched salary figures of the deterministic regex step, in the
order they appear in the text. -/
def regexSalaryVals (content : String) : Option (ℚ × ℚ) :=
  extractGoVals content salaryPatterns

/-! ## C5: bounds returned by the deterministic regex step -/

theorem groupFloat_nat (g : List Char) (s : String) (n : ℕ)
    (h1 : String.mk (g.filter fun c => !(c == ',')) = s)
    (h2 : s.toList.all Char.isDigit = true) (h3 : s.toList ≠ [])
    (h4 : digitsToNat s.toList = n) :
    groupFloat g = some (n : ℚ) := by
  unfold groupFloat
  rw [h1, pyFloat_digits s h2 h3, h4]

theorem extractGo_eq_of_vals (content : String)
    (ps : List (List Char → Option (List Char × List Char))) (a b : ℚ)
    (h : extractGoVals content ps = some (a, b)) :
    extractGo content ps =
      if mentionsK content = true ∧ a < 1000 then
        some (SalaryRange.make (some (a * 1000)) (some (b * 1000)) none "USD" "yearly")
      else some (SalaryRange.make (some a) (some b) none "USD" "yearly") := by
  induction ps with
  | nil => simp [extractGoVals] at h
  | cons p ps ih =>
    rw [extractGoVals] at h
    rw [extractGo]
    cases hf : findFirstMatchAux p content.toList with
    | none =>
      rw [hf] at h
      exact ih h
    | some g =>
      obtain ⟨g1, g2⟩ := g
      rw [hf] at h
      cases h1 : groupFloat g1 with
      | none =>
        simp only [h1] at h ⊢
        exact ih h
      | some mn =>
        cases h2 : groupFloat g2 with
        | none =>
          simp only [h1, h2] at h ⊢
          exact ih h
        | some mx =>
          simp only [h1, h2, Option.some.injEq, Prod.mk.injEq] at h
          obtain ⟨rfl, rfl⟩ := h
          simp only [h1, h2]

/-- C5 counterexample: the deterministic regex step applied to the
`$X - $Y`-shaped text `"$200,000 - $100,000"` returns the two matched
numbers in their textual order, so `min_salary = 200000 > 100000 =
max_salary` — the claimed `min_salary <= max_salary` fails. -/
theorem C5_counterexample_min_gt_max :
    extractSalaryWithRegex "$200,000 - $100,000"
      = some (SalaryRange.make (some 200000) (some 100000) none "USD" "yearly") ∧
    (SalaryRange.make (some 200000) (some 100000) none "USD" "yearly").min_salary
      = some (200000 : ℚ) ∧
    (SalaryRange.make (some 200000) (some 100000) none "USD" "yearly").max_salary
      = some (100000 : ℚ) ∧
    ¬((200000 : ℚ) ≤ 100000) := by
  have hm : findFirstMatchAux matchP1At "$200,000 - $100,000".toList
      = some ("200,000".toList, "100,000".toList) := by decide
  have hg1 : groupFloat "200,000".toList = some (200000 : ℚ) := by
    rw [groupFloat_nat "200,000".toList "200000" 200000 (by decide) (by decide) (by decide)
      (by decide)]
    norm_num
  have hg2 : groupFloat "100,000".toList = some (100000 : ℚ) := by
    rw [groupFloat_nat "100,000".toList "100000" 100000 (by decide) (by decide) (by decide)
      (by decide)]
    norm_num
  have hv : regexSalaryVals "$200,000 - $100,000" = some ((200000 : ℚ), (100000 : ℚ)) := by
    simp only [regexSalaryVals, salaryPatterns, extractGoVals, hm, hg1, hg2]
  have he := extractGo_eq_of_vals "$200,000 - $100,000" salaryPatterns 200000 100000 hv
  refine ⟨?_, rfl, rfl, by norm_num⟩
  rw [extractSalaryWithRegex, he, if_neg]
  rintro ⟨hk, -⟩
  exact absurd hk (by decide)

/-- C5 (amended): for every text on which the deterministic regex step fires
with matched numbers `a` then `b` (in textual order), the returned bounds are
exactly those numbers — scaled by exactly 1000 when the k heuristic applies
(the content mentions "k" and the parsed min is under 1000) — so
`min_salary ≤ max_salary` holds iff the text lists the smaller figure first,
not unconditionally. -/
theorem C5_regex_bounds_text_order (content : String) (a b : ℚ)
    (h : regexSalaryVals content = some (a, b)) :
    (mentionsK content = true ∧ a < 1000 →
      extractSalaryWithRegex content
        = some (SalaryRange.make (some (a * 1000)) (some (b * 1000)) none "USD" "yearly") ∧
      (a * 1000 ≤ b * 1000 ↔ a ≤ b)) ∧
    (¬(mentionsK content = true ∧ a < 1000) →
      extractSalaryWithRegex content
        = some (SalaryRange.make (some a) (some b) none "USD" "yearly")) := by
  have he := extractGo_eq_of_vals content salaryPatterns a b h
  constructor
  · intro hk
    rw [extractSalaryWithRegex, he, if_pos hk]
    exact ⟨rfl, mul_le_mul_right (show (0 : ℚ) < 1000 by norm_num)⟩
  · intro hk
    rw [extractSalaryWithRegex, he, if_neg hk]

/-- Witness for `C5_regex_bounds_text_order`: on `"90k - 130k"` the k
heuristic applies and both bounds are scaled by exactly 1000. -/
theorem C5_regex_bounds_text_order_witness :
    regexSalaryVals "90k - 130k" = some ((90 : ℚ), (130 : ℚ)) ∧
    mentionsK "90k - 130k" = true ∧
    extractSalaryWithRegex "90k - 130k"
      = some (SalaryRange.make (some ((90 : ℚ) * 1000)) (some ((130 : ℚ) * 1000))
          none "USD" "yearly") := by
  have hm1 : findFirstMatchAux matchP1At "90k - 130k".toList = none := by decide
  have hm2 : findFirstMatchAux matchP2At "90k - 130k".toList = none := by decide
  have hm3 : findFirstMatchAux matchP3At "90k - 130k".toList = none := by decide
  have hm4 : findFirstMatchAux matchP4At "90k - 130k".toList
      = some ("90".toList, "130".toList) := by decide
  have hg1 : groupFloat "90".toList = some (90 : ℚ) := by
    rw [groupFloat_nat "90".toList "90" 90 (by decide) (by decide) (by decide) (by decide)]
    norm_num
  have hg2 : groupFloat "130".toList = some (130 : ℚ) := by
    rw [groupFloat_nat "130".toList "130" 130 (by decide) (by decide) (by decide) (by decide)]
    norm_num
  have hv : regexSalaryVals "90k - 130k" = some ((90 : ℚ), (130 : ℚ)) := by
    simp only [regexSalaryVals, salaryPatterns, extractGoVals, hm1, hm2, hm3, hm4, hg1, hg2]
  exact ⟨hv, by decide,
    ((C5_regex_bounds_text_order "90k - 130k" 90 130 hv).1 ⟨by decide, by norm_num⟩).1⟩

/-! ## `chains/location_validation.py`: keyword scoring and LLM fallback -/

def remoteKeywords : List String :=
  ["remote", "work from home", "wfh", "100% remote", "fully remote"]

def hybridKeywords : List String :=
  ["hybrid", "flexible", "office/remote", "remote/office"]

def onsiteKeywords : List String :=
  ["on-site", "onsite", "in-office", "office-based"]

/-- Embeds `sum(1 for keyword in keywords if keyword in content_lower)`. -/
def keywordScore (keywords : List String) (contentLower : List Char) : ℕ :=
  (keywords.filter fun k => isInfixOfCL k.toList contentLower).length

def remoteScore (content : String) : ℕ :=
  keywordScore remoteKeywords (lowerCL content.toList)

def hybridScore (content : String) : ℕ :=
  keywordScore hybridKeywords (lowerCL content.toList)

def onsiteScore (content : String) : ℕ :=
  keywordScore onsiteKeywords (lowerCL content.toList)

/-- Embeds `LocationValidationChain._detect_location_type_with_keywords`. -/
def detectLocationTypeWithKeywords (content : String) : WorkLocationType :=
  if remoteScore content > hybridScore content ∧ remoteScore content > onsiteScore content then
    .REMOTE
  else if hybridScore content > onsiteScore content then .HYBRID
  else if onsiteScore content > 0 then .ON_SITE
  else .UNKNOWN

/-- Embeds `LocationValidationChain.validate_location_type`: the keyword pass runs
first and is returned when conclusive; only an Unknown keyword result reaches
the LLM (whose outcome, value or exception, is the `llmRes` input); an
exception yields Unknown. -/
def validateLocationType (content : String) (_currentType : String)
    (llmRes : Except String WorkLocationType) : WorkLocationType :=
  if detectLocationTypeWithKeywords content ≠ .UNKNOWN then
    detectLocationTypeWithKeywords content
  else
    match llmRes with
    | .ok t => t
    | .error _ => .UNKNOWN

/-! ## C7: keyword-scoring decision rule -/

/-- C7 counterexample: on `"remote/office"` the remote and hybrid scores tie
at 1 (with on-site at 0), and the keyword detector returns Hybrid — the tie
is *not* broken in favor of Remote as claimed. -/
theorem C7_counterexample_tie_prefers_hybrid :
    remoteScore "remote/office" = 1 ∧
    hybridScore "remote/office" = 1 ∧
    onsiteScore "remote/office" = 0 ∧
    detectLocationTypeWithKeywords "remote/office" = .HYBRID ∧
    WorkLocationType.HYBRID ≠ WorkLocationType.REMOTE := by
  decide

/-- C7 (amended): each keyword set is scored by the number of its keywords
occurring in the lowercased content; a strictly highest score wins its
category; but ties are broken *against* Remote (Remote wins only when
strictly highest on both comparisons; a Hybrid–On-site tie falls to On-site);
an all-zero score — and only that — yields Unknown, in which case (and only
in which case) `validate_location_type` falls back to the LLM outcome. -/
theorem C7_keyword_scoring_rule (content currentType : String)
    (llmRes : Except String WorkLocationType) :
    (detectLocationTypeWithKeywords content = .REMOTE ↔
      remoteScore content > hybridScore content ∧
      remoteScore content > onsiteScore content) ∧
    (detectLocationTypeWithKeywords content = .HYBRID ↔
      ¬(remoteScore content > hybridScore content ∧
        remoteScore content > onsiteScore content) ∧
      hybridScore content > onsiteScore content) ∧
    (detectLocationTypeWithKeywords content = .ON_SITE ↔
      ¬(remoteScore content > hybridScore content ∧
        remoteScore content > onsiteScore content) ∧
      ¬(hybridScore content > onsiteScore content) ∧
      onsiteScore content > 0) ∧
    (detectLocationTypeWithKeywords content = .UNKNOWN ↔
      remoteScore content = 0 ∧ hybridScore content = 0 ∧ onsiteScore content = 0) ∧
    (detectLocationTypeWithKeywords content ≠ .UNKNOWN →
      validateLocationType content currentType llmRes = detectLocationTypeWithKeywords content) ∧
    (detectLocationTypeWithKeywords content = .UNKNOWN →
      validateLocationType content currentType llmRes =
        match llmRes with
        | .ok t => t
        | .error _ => .UNKNOWN) := by
  refine ⟨?_, ?_, ?_, ?_, ?_, ?_⟩
  · unfold detectLocationTypeWithKeywords
    split_ifs with h1 h2 h3
    · exact ⟨fun _ => h1, fun _ => rfl⟩
    · exact ⟨fun hx => absurd hx (by decide), fun hx => absurd hx h1⟩
    · exact ⟨fun hx => absurd hx (by decide), fun hx => absurd hx h1⟩
    · exact ⟨fun hx => absurd hx (by decide), fun hx => absurd hx h1⟩
  · unfold detectLocationTypeWithKeywords
    split_ifs with h1 h2 h3
    · exact ⟨fun hx => absurd hx (by decide), fun hx => absurd h1 hx.1⟩
    · exact ⟨fun _ => ⟨h1, h2⟩, fun _ => rfl⟩
    · exact ⟨fun hx => absurd hx (by decide), fun hx => absurd hx.2 h2⟩
    · exact ⟨fun hx => absurd hx (by decide), fun hx => absurd hx.2 h2⟩
  · unfold detectLocationTypeWithKeywords
    split_ifs with h1 h2 h3
    · exact ⟨fun hx => absurd hx (by decide), fun hx => absurd h1 hx.1⟩
    · exact ⟨fun hx => absurd hx (by decide), fun hx => absurd h2 hx.2.1⟩
    · exact ⟨fun _ => ⟨h1, h2, h3⟩, fun _ => rfl⟩
    · exact ⟨fun hx => absurd hx (by decide), fun hx => absurd hx.2.2 h3⟩
  · unfold detectLocationTypeWithKeywords
    split_ifs with h1 h2 h3
    · exact ⟨fun hx => absurd hx (by decide), fun hx => absurd h1 (by omega)⟩
    · exact ⟨fun hx => absurd hx (by decide), fun hx => absurd h2 (by omega)⟩
    · exact ⟨fun hx => absurd hx (by decide), fun hx => absurd h3 (by omega)⟩
    · refine ⟨fun hx => ?_, fun hx => rfl⟩
      push_neg at h1 h2 h3
      omega
  · intro h
    unfold validateLocationType
    rw [if_pos h]
  · intro h
    unfold validateLocationType
    rw [if_neg (by simp [h])]

/-- Witness for `C7_keyword_scoring_rule`: on `"fully remote work"` the
remote score is strictly highest, the detector returns Remote, and
`validate_location_type` returns it without consulting the LLM. -/
theorem C7_keyword_scoring_rule_witness :
    detectLocationTypeWithKeywords "fully remote work" = .REMOTE ∧
    validateLocationType "fully remote work" "On-site" (.error "llm down") = .REMOTE := by
  have h := (C7_keyword_scoring_rule "fully remote work" "On-site" (.error "llm down")).2.2.2.2.1
    (by decide)
  exact ⟨by decide, by rw [h]; decide⟩

/-! ## `nodes/state.py`, `nodes/*.py`: the cleaning state and node functions

Each node's `try` block invokes chain construction and (for some nodes) an
LLM call; everything that can reach the node's `except` handler from outside
is modelled by an `Except String`-valued input (`.error e` is an exception
with message `e`).  The employment node can itself raise `AttributeError`
(via `map_to_employment_type`), so it returns `Except PyErr`. -/

/-- A Python exception escaping a node. -/
inductive PyErr
  | attributeError (msg : String)
  deriving DecidableEq, Repr

instance {ε α : Type} [DecidableEq ε] [DecidableEq α] : DecidableEq (Except ε α) := fun a b =>
  match a, b with
  | .error e₁, .error e₂ =>
    if h : e₁ = e₂ then isTrue (by rw [h])
    else isFalse (by intro hx; cases hx; exact h rfl)
  | .error _, .ok _ => isFalse (by intro hx; cases hx)
  | .ok _, .error _ => isFalse (by intro hx; cases hx)
  | .ok a₁, .ok a₂ =>
    if h : a₁ = a₂ then isTrue (by rw [h])
    else isFalse (by intro hx; cases hx; exact h rfl)

def PyErr.toMessage : PyErr → String
  | .attributeError m => m

/-- Embeds `JobCleaningState` (`nodes/state.py`). -/
structure JobCleaningState where
  job_id : String
  company : String
  title : String
  location : Option String
  content : String
  original_work_location_type : Option String
  original_employment_type : Option String
  original_salary_range : Option String
  min_years_experience : Option ℕ
  experience_level : Option ExperienceLevel
  experience_level_label : Option String
  salary_range : Option SalaryRange
  salary_corrected : Bool
  work_location_type : Option WorkLocationType
  location_corrected : Bool
  employment_type : Option EmploymentType
  employment_corrected : Bool
  processing_errors : List String
  processing_complete : Bool
  deriving DecidableEq, Repr

/-- Embeds `map_to_location_type` (`nodes/location_validation.py`); the argument is
the raw original field (possibly `None`). -/
def mapToLocationType (typeStr : Option String) : WorkLocationType :=
  match typeStr with
  | none => .UNKNOWN
  | some s =>
    if s = "" then .UNKNOWN
    else
      if isInfixOfCL "remote".toList (stripCL (lowerCL s.toList)) then .REMOTE
      else if isInfixOfCL "hybrid".toList (stripCL (lowerCL s.toList)) then .HYBRID
      else if isInfixOfCL "on-site".toList (stripCL (lowerCL s.toList)) ||
              isInfixOfCL "onsite".toList (stripCL (lowerCL s.toList)) then .ON_SITE
      else .UNKNOWN

/-- Embeds `map_to_employment_type` (`nodes/employment_validation.py`).  The `"temp"`
branch executes `return EmploymentType.TEMPORARY`, but the `EmploymentType`
enum has no such member, so that branch raises `AttributeError`. -/
def mapToEmploymentType (typeStr : Option String) : Except PyErr EmploymentType :=
  match typeStr with
  | none => .ok .UNKNOWN
  | some s =>
    if s = "" then .ok .UNKNOWN
    else
      if isInfixOfCL "full".toList (stripCL (lowerCL s.toList)) then .ok .FULL_TIME
      else if isInfixOfCL "part".toList (stripCL (lowerCL s.toList)) then .ok .PART_TIME
      else if isInfixOfCL "contract".toList (stripCL (lowerCL s.toList)) then .ok .CONTRACT
      else if isInfixOfCL "intern".toList (stripCL (lowerCL s.toList)) then .ok .INTERNSHIP
      else if isInfixOfCL "temp".toList (stripCL (lowerCL s.toList)) then
        .error (.attributeError "type object 'EmploymentType' has no attribute 'TEMPORARY'")
      else .ok .UNKNOWN

/-- Embeds `initialize_state_node` (`graph.py`). -/
def initializeStateNode (st : JobCleaningState) : JobCleaningState :=
  { st with processing_complete := false, salary_corrected := false,
            location_corrected := false, employment_corrected := false }

/-- Embeds `finalize_state_node` (`graph.py`). -/
def finalizeStateNode (st : JobCleaningState) : JobCleaningState :=
  { st with processing_complete := true }

/-- Embeds `extract_experience_node` (`nodes/experience_extraction.py`): `chainRes`
is the outcome of the experience chain (which only returns non-negative year
counts); on an exception the node appends the error and substitutes the
defaults `0` years / no level / label `"Unknown"`. -/
def extractExperienceNode (st : JobCleaningState) (chainRes : Except String ℕ) :
    JobCleaningState :=
  match chainRes with
  | .ok years =>
    { st with min_years_experience := some years,
              experience_level := some (ExperienceLevel.fromYears years),
              experience_level_label := some (ExperienceLevel.fromYears years).getLabel }
  | .error e =>
    { st with processing_errors := st.processing_errors ++ ["Failed to extract experience: " ++ e],
              min_years_experience := some 0,
              experience_level := none,
              experience_level_label := some "Unknown" }

/-- Embeds `extract_salary_node` (`nodes/salary_extraction.py`): if the original
salary text is present and the deterministic regex parses it, it is kept with
`salary_corrected = False`; otherwise the chain's content extraction
(`chainRes`) is used, setting `salary_corrected = True` exactly when it
produced a range; an exception appends the error and clears the salary. -/
def extractSalaryNode (st : JobCleaningState) (chainRes : Except String (Option SalaryRange)) :
    JobCleaningState :=
  match chainRes with
  | .error e =>
    { st with processing_errors := st.processing_errors ++ ["Failed to extract salary: " ++ e],
              salary_range := none, salary_corrected := false }
  | .ok extracted =>
    if st.original_salary_range.getD "" ≠ "" ∧ stripS (st.original_salary_range.getD "") ≠ ""
    then
      match extractSalaryWithRegex (st.original_salary_range.getD "") with
      | some existing => { st with salary_range := some existing, salary_corrected := false }
      | none =>
        match extracted with
        | some s => { st with salary_range := some s, salary_corrected := true }
        | none => { st with salary_range := none, salary_corrected := false }
    else
      match extracted with
      | some s => { st with salary_range := some s, salary_corrected := true }
      | none => { st with salary_range := none, salary_corrected := false }

/-- Embeds `validate_location_node` (`nodes/location_validation.py`). -/
def validateLocationNode (st : JobCleaningState) (chainRes : Except String WorkLocationType) :
    JobCleaningState :=
  match chainRes with
  | .error e =>
    { st with
      processing_errors := st.processing_errors ++ ["Failed to validate location type: " ++ e],
      work_location_type := some
        (match st.original_work_location_type with
         | some s => if s ≠ "" then mapToLocationType (some s) else .UNKNOWN
         | none => .UNKNOWN),
      location_corrected := false }
  | .ok res =>
    if stripS (st.original_work_location_type.getD "") = "" then
      { st with work_location_type := some res,
                location_corrected := decide (res ≠ .UNKNOWN) }
    else
      if res = .UNKNOWN then
        { st with work_location_type := some (mapToLocationType st.original_work_location_type),
                  location_corrected := false }
      else
        { st with work_location_type := some res,
                  location_corrected :=
                    decide (mapToLocationType st.original_work_location_type ≠ res) }

/-- The `except Exception as e` handler of `validate_employment_node`: it
appends the message to the error list and then calls `map_to_employment_type`
on the original value again — which may itself raise (`.error`), in which
case no state is returned by the node. -/
def validateEmploymentHandler (st : JobCleaningState) (e : String) :
    Except PyErr JobCleaningState :=
  match st.original_employment_type with
  | some s =>
    if s ≠ "" then
      match mapToEmploymentType (some s) with
      | .error pe => .error pe
      | .ok t =>
        .ok { st with
              processing_errors :=
                st.processing_errors ++ ["Failed to validate employment type: " ++ e],
              employment_type := some t, employment_corrected := false }
    else
      .ok { st with
            processing_errors :=
              st.processing_errors ++ ["Failed to validate employment type: " ++ e],
            employment_type := some .UNKNOWN, employment_corrected := false }
  | none =>
    .ok { st with
          processing_errors :=
            st.processing_errors ++ ["Failed to validate employment type: " ++ e],
          employment_type := some .UNKNOWN, employment_corrected := false }

/-- Embeds `validate_employment_node` (`nodes/employment_validation.py`).  The
`except` handler itself calls `map_to_employment_type` on the original value,
so an `AttributeError` raised there escapes the node (`.error`). -/
def validateEmploymentNode (st : JobCleaningState) (chainRes : Except String EmploymentType) :
    Except PyErr JobCleaningState :=
  match chainRes with
  | .error e => validateEmploymentHandler st e
  | .ok res =>
    if stripS (st.original_employment_type.getD "") = "" then
      .ok { st with employment_type := some res,
                    employment_corrected := decide (res ≠ .UNKNOWN) }
    else
      match mapToEmploymentType st.original_employment_type with
      | .error pe => validateEmploymentHandler st pe.toMessage
      | .ok originalEnum =>
        if res = .UNKNOWN then
          .ok { st with employment_type := some originalEnum, employment_corrected := false }
        else
          .ok { st with employment_type := some res,
                        employment_corrected := decide (originalEnum ≠ res) }

/-- The compiled workflow of `JobCleaningGraph._build_workflow`: the strictly
linear chain Initialize → ExtractExperience → ExtractSalary →
ValidateLocation → ValidateEmployment → Finalize, where an exception escaping
a node aborts the run. -/
def runCleaningGraph (st : JobCleaningState) (expRes : Except String ℕ)
    (salRes : Except String (Option SalaryRange)) (locRes : Except String WorkLocationType)
    (empRes : Except String EmploymentType) : Except PyErr JobCleaningState :=
  match validateEmploymentNode
      (validateLocationNode
        (extractSalaryNode (extractExperienceNode (initializeStateNode st) expRes) salRes)
        locRes) empRes with
  | .error pe => .error pe
  | .ok s5 => .ok (finalizeStateNode s5)

/-! ## C10, C2, C1: the `EmploymentType.TEMPORARY` slip -/

/-- A concrete job record whose source-supplied employment type is
`"Temporary"`. -/
def sampleTempState : JobCleaningState :=
  { job_id := "job-1", company := "Acme", title := "Data Engineer",
    location := some "Austin, TX", content := "Seasonal warehouse support role.",
    original_work_location_type := some "On-site",
    original_employment_type := some "Temporary",
    original_salary_range := none,
    min_years_experience := none, experience_level := none, experience_level_label := none,
    salary_range := none, salary_corrected := false,
    work_location_type := none, location_corrected := false,
    employment_type := none, employment_corrected := false,
    processing_errors := [], processing_complete := false }

/-- C10 counterexample: `"full-time temp"` is a non-empty string containing
`"temp"`, yet `map_to_employment_type` returns `FULL_TIME` without raising,
because the `"full"` branch is tested first. -/
theorem C10_counterexample_full_shadows_temp :
    mapToEmploymentType (some "full-time temp") = .ok .FULL_TIME ∧
    isInfixOfCL "temp".toList (stripCL (lowerCL "full-time temp".toList)) = true := by
  decide

/-- C10 (amended): `map_to_employment_type` raises `AttributeError` exactly
on the non-empty strings whose lower-cased stripped form contains `"temp"`
and none of `"full"`, `"part"`, `"contract"`, `"intern"`; and whenever the
record's original employment type is present, non-blank and maps to that
error, `validate_employment_node` raises it instead of returning the state —
whatever the chain outcome was. -/
theorem C10_temp_raises_attributeError :
    (∀ s : String,
      (∃ pe, mapToEmploymentType (some s) = .error pe) ↔
        (s ≠ "" ∧
         isInfixOfCL "temp".toList (stripCL (lowerCL s.toList)) = true ∧
         isInfixOfCL "full".toList (stripCL (lowerCL s.toList)) = false ∧
         isInfixOfCL "part".toList (stripCL (lowerCL s.toList)) = false ∧
         isInfixOfCL "contract".toList (stripCL (lowerCL s.toList)) = false ∧
         isInfixOfCL "intern".toList (stripCL (lowerCL s.toList)) = false)) ∧
    (∀ (st : JobCleaningState) (chainRes : Except String EmploymentType) (s : String)
        (pe : PyErr),
      st.original_employment_type = some s → stripS s ≠ "" →
      mapToEmploymentType (some s) = .error pe →
      validateEmploymentNode st chainRes = .error pe) := by
  constructor
  · intro s
    unfold mapToEmploymentType
    dsimp only
    split_ifs with h1 h2 h3 h4 h5 h6 <;> simp_all
  · intro st chainRes s pe h1 h2 hmap
    have hs : s ≠ "" := by
      intro h
      subst h
      exact h2 rfl
    cases chainRes with
    | error e =>
      show validateEmploymentHandler st e = .error pe
      unfold validateEmploymentHandler
      rw [h1]
      dsimp only
      rw [if_pos hs, hmap]
    | ok res =>
      unfold validateEmploymentNode
      dsimp only
      rw [h1]
      simp only [Option.getD_some]
      rw [if_neg h2, hmap]
      show validateEmploymentHandler st pe.toMessage = .error pe
      unfold validateEmploymentHandler
      rw [h1]
      dsimp only
      rw [if_pos hs, hmap]

/-- Witness for `C10_temp_raises_attributeError`: with original type
`"Temporary"` and a chain failure, the employment node raises. -/
theorem C10_temp_raises_attributeError_witness :
    validateEmploymentNode sampleTempState (.error "LLM connection refused")
      = .error (.attributeError "type object 'EmploymentType' has no attribute 'TEMPORARY'") :=
  C10_temp_raises_attributeError.2 sampleTempState (.error "LLM connection refused")
    "Temporary" (.attributeError "type object 'EmploymentType' has no attribute 'TEMPORARY'")
    rfl (by decide) (by decide)

/-- C2: at the failing input — original employment type `"Temporary"`
present, validator result Unknown — the claimed behaviour (store the
original's mapped enumeration with `employment_corrected = false`) is
impossible: the node raises `AttributeError` and returns no state. -/
theorem C2_temp_original_node_raises :
    validateEmploymentNode sampleTempState (.ok .UNKNOWN)
      = .error (.attributeError "type object 'EmploymentType' has no attribute 'TEMPORARY'") := by
  decide

/-- C1: with original employment type `"Temporary"`, the pipeline run aborts
with `AttributeError` — the employment node's `except` handler re-raises
while building the safe default, so the record never reaches Finalize and no
final state (with `processing_complete = true`) exists.  This happens both
when the employment chain fails and when it returns Unknown. -/
theorem C1_temp_record_never_reaches_finalize :
    runCleaningGraph sampleTempState (.ok 5) (.ok none) (.ok .HYBRID)
        (.error "LLM connection refused")
      = .error (.attributeError "type object 'EmploymentType' has no attribute 'TEMPORARY'") ∧
    runCleaningGraph sampleTempState (.ok 5) (.ok none) (.ok .HYBRID) (.ok .UNKNOWN)
      = .error (.attributeError "type object 'EmploymentType' has no attribute 'TEMPORARY'") := by
  decide

/-! ## C3: when the corrected flags are set -/

/-- A concrete job record with no original classifications at all. -/
def noOriginalState : JobCleaningState :=
  { job_id := "job-2", company := "Globex", title := "Analyst",
    location := none, content := "100% remote position.",
    original_work_location_type := none,
    original_employment_type := none,
    original_salary_range := none,
    min_years_experience := none, experience_level := none, experience_level_label := none,
    salary_range := none, salary_corrected := false,
    work_location_type := none, location_corrected := false,
    employment_type := none, employment_corrected := false,
    processing_errors := [], processing_complete := false }

/-- A salary range as the content chain would deliver it. -/
def freshRange : SalaryRange := ⟨some 90000, some 130000, some 110000, "USD", "yearly"⟩

/-- C3 counterexample: with a missing original work-location type, a freshly
detected Remote sets `location_corrected = true`, and with a missing original
salary text, a freshly extracted range sets `salary_corrected = true` — the
flags are set by fresh detection alone, contradicting the claim. -/
theorem C3_counterexample_missing_original_sets_flags :
    noOriginalState.original_work_location_type = none ∧
    (validateLocationNode noOriginalState (.ok .REMOTE)).location_corrected = true ∧
    noOriginalState.original_salary_range = none ∧
    (extractSalaryNode noOriginalState (.ok (some freshRange))).salary_corrected = true := by
  decide

/-- C3 (amended): the three corrected flags obey — location: true iff either
the original is missing/blank and the validated value is not Unknown, or an
original is present and the validated value is neither Unknown nor the
original's mapped enumeration; employment: identically, whenever the node
returns a state; salary: true iff the chain extracted a range from the
content and the original salary text was absent, blank, or not parseable by
the deterministic regex.  On a node exception every flag is false. -/
theorem C3_corrected_flags_characterization :
    (∀ (st : JobCleaningState) (res : WorkLocationType),
      ((validateLocationNode st (.ok res)).location_corrected = true ↔
        (stripS (st.original_work_location_type.getD "") = "" ∧ res ≠ .UNKNOWN) ∨
        (stripS (st.original_work_location_type.getD "") ≠ "" ∧ res ≠ .UNKNOWN ∧
         mapToLocationType st.original_work_location_type ≠ res))) ∧
    (∀ (st : JobCleaningState) (e : String),
      (validateLocationNode st (.error e)).location_corrected = false) ∧
    (∀ (st : JobCleaningState) (res : EmploymentType) (st' : JobCleaningState),
      validateEmploymentNode st (.ok res) = .ok st' →
      (st'.employment_corrected = true ↔
        (stripS (st.original_employment_type.getD "") = "" ∧ res ≠ .UNKNOWN) ∨
        (stripS (st.original_employment_type.getD "") ≠ "" ∧ res ≠ .UNKNOWN ∧
         mapToEmploymentType st.original_employment_type ≠ .ok res))) ∧
    (∀ (st : JobCleaningState) (e : String) (st' : JobCleaningState),
      validateEmploymentNode st (.error e) = .ok st' → st'.employment_corrected = false) ∧
    (∀ (st : JobCleaningState) (extracted : Option SalaryRange),
      ((extractSalaryNode st (.ok extracted)).salary_corrected = true ↔
        extracted.isSome = true ∧
        ¬(st.original_salary_range.getD "" ≠ "" ∧
          stripS (st.original_salary_range.getD "") ≠ "" ∧
          (extractSalaryWithRegex (st.original_salary_range.getD "")).isSome = true))) ∧
    (∀ (st : JobCleaningState) (e : String),
      (extractSalaryNode st (.error e)).salary_corrected = false) := by
  refine ⟨?_, ?_, ?_, ?_, ?_, ?_⟩
  · intro st res
    unfold validateLocationNode
    dsimp only
    split_ifs with hb hu
    · simp only [decide_eq_true_eq]
      constructor
      · intro h
        exact Or.inl ⟨hb, h⟩
      · rintro (⟨-, h⟩ | ⟨hnb, -, -⟩)
        · exact h
        · exact absurd hb hnb
    · subst hu
      constructor
      · intro hx
        exact absurd hx (by simp)
      · rintro (⟨-, h⟩ | ⟨-, h, -⟩) <;> exact absurd rfl h
    · simp only [decide_eq_true_eq]
      constructor
      · intro h
        exact Or.inr ⟨hb, hu, h⟩
      · rintro (⟨hblank, -⟩ | ⟨-, -, h⟩)
        · exact absurd hblank hb
        · exact h
  · intro st e
    rfl
  · intro st res st' h
    unfold validateEmploymentNode at h
    dsimp only at h
    split_ifs at h with hb hu
    · cases h
      dsimp only
      simp only [decide_eq_true_eq]
      constructor
      · intro hx
        exact Or.inl ⟨hb, hx⟩
      · rintro (⟨-, hx⟩ | ⟨hnb, -, -⟩)
        · exact hx
        · exact absurd hb hnb
    · subst hu
      cases ho : st.original_employment_type with
      | none =>
        rw [ho] at hb
        exact absurd rfl hb
      | some s =>
        rw [ho] at h hb
        simp only [Option.getD_some] at hb
        have hs : s ≠ "" := by
          intro hx
          subst hx
          exact hb rfl
        cases hm : mapToEmploymentType (some s) with
        | error pe =>
          rw [hm] at h
          dsimp only at h
          unfold validateEmploymentHandler at h
          rw [ho] at h
          dsimp only at h
          rw [if_pos hs, hm] at h
          exact absurd h (by simp)
        | ok orig =>
          rw [hm] at h
          dsimp only at h
          cases h
          dsimp only
          constructor
          · intro hx
            exact absurd hx (by simp)
          · rintro (⟨-, hx⟩ | ⟨-, hx, -⟩) <;> exact absurd rfl hx
    · cases ho : st.original_employment_type with
      | none =>
        rw [ho] at hb
        exact absurd rfl hb
      | some s =>
        rw [ho] at h hb
        simp only [Option.getD_some] at hb
        have hs : s ≠ "" := by
          intro hx
          subst hx
          exact hb rfl
        cases hm : mapToEmploymentType (some s) with
        | error pe =>
          rw [hm] at h
          dsimp only at h
          unfold validateEmploymentHandler at h
          rw [ho] at h
          dsimp only at h
          rw [if_pos hs, hm] at h
          exact absurd h (by simp)
        | ok orig =>
          rw [hm] at h
          dsimp only at h
          cases h
          dsimp only
          simp only [decide_eq_true_eq]
          constructor
          · intro hx
            refine Or.inr ⟨hb, hu, ?_⟩
            intro hy
            exact hx (Except.ok.inj hy)
          · rintro (⟨hblank, -⟩ | ⟨-, -, hne⟩)
            · exact absurd hblank hb
            · intro hy
              exact hne (by rw [hy])
  · intro st e st' h
    unfold validateEmploymentNode validateEmploymentHandler at h
    dsimp only at h
    cases ho : st.original_employment_type with
    | none =>
      rw [ho] at h
      dsimp only at h
      cases h
      rfl
    | some s =>
      rw [ho] at h
      dsimp only at h
      split_ifs at h with hs
      · cases hm : mapToEmploymentType (some s) with
        | error pe =>
          rw [hm] at h
          cases h
        | ok t =>
          rw [hm] at h
          cases h
          rfl
      · cases h
        rfl
  · intro st extracted
    unfold extractSalaryNode
    dsimp only
    split_ifs with hc
    · cases hr : extractSalaryWithRegex (st.original_salary_range.getD "") with
      | some existing =>
        dsimp only
        constructor
        · intro hx
          exact absurd hx (by simp)
        · rintro ⟨-, hno⟩
          exact absurd ⟨hc.1, hc.2, rfl⟩ hno
      | none =>
        cases extracted with
        | some sal =>
          dsimp only
          constructor
          · intro
            refine ⟨rfl, ?_⟩
            rintro ⟨-, -, hx⟩
            exact absurd hx (by decide)
          · intro
            rfl
        | none =>
          dsimp only
          constructor
          · intro hx
            exact absurd hx (by simp)
          · rintro ⟨hx, -⟩
            exact absurd hx (by decide)
    · cases extracted with
      | some sal =>
        dsimp only
        constructor
        · intro
          exact ⟨rfl, fun hx => hc ⟨hx.1, hx.2.1⟩⟩
        · intro
          rfl
      | none =>
        dsimp only
        constructor
        · intro hx
          exact absurd hx (by simp)
        · rintro ⟨hx, -⟩
          exact absurd hx (by decide)
  · intro st e
    rfl

/-- A record whose original employment type is `"Part-time"`. -/
def empOkState : JobCleaningState :=
  { noOriginalState with original_employment_type := some "Part-time" }

/-- The state the employment node returns on `empOkState` with validator
result Full-time. -/
def empOkExpected : JobCleaningState :=
  { empOkState with employment_type := some .FULL_TIME, employment_corrected := true }

/-- Witness for `C3_corrected_flags_characterization`: a present original
`"Part-time"` corrected to Full-time sets the flag, and the characterization
instantiates there. -/
theorem C3_corrected_flags_characterization_witness :
    (empOkExpected.employment_corrected = true ↔
      (stripS (empOkState.original_employment_type.getD "") = "" ∧
        EmploymentType.FULL_TIME ≠ .UNKNOWN) ∨
      (stripS (empOkState.original_employment_type.getD "") ≠ "" ∧
        EmploymentType.FULL_TIME ≠ .UNKNOWN ∧
        mapToEmploymentType empOkState.original_employment_type ≠ .ok .FULL_TIME)) ∧
    empOkExpected.employment_corrected = true :=
  ⟨C3_corrected_flags_characterization.2.2.1 empOkState .FULL_TIME empOkExpected (by decide),
   by decide⟩

/-! ## `linkedin_parser/database.py`: the jobs table and `save_job` -/

/-- The 23 columns `DatabaseManager.save_job` inserts into `jobs`
(`Job.to_dict()` of `linkedin_parser/models.py`); by insert time
`Job.__post_init__` has made `id` a concrete UUID string. -/
structure JobRecord where
  id : String
  company : String
  title : String
  location : Option String
  work_location_type : Option String
  level : Option String
  salary_range : Option String
  content : String
  employment_type : Option String
  job_function : Option String
  industries : Option String
  posted_time : Option String
  applicants : Option String
  job_id : String
  date : Option String
  parsing_link : Option String
  job_posting_link : Option String
  run_id : Option ℤ
  company_id : Option String
  company_size : Option String
  company_followers : Option String
  company_industry : Option String
  company_info_link : Option String
  deriving DecidableEq, Repr

/-- A database error surfaced by `sqlite3` (here: a PRIMARY KEY violation). -/
inductive DBError
  | integrityError
  deriving DecidableEq, Repr

/-- Embeds `DatabaseManager.save_job`: a plain `INSERT INTO jobs`.  The source has
no pre-insert duplicate check; on a duplicate `id` sqlite raises
`IntegrityError` (`id` is the PRIMARY KEY), the enclosing transaction is
rolled back — the stored rows are unchanged — and `save_job` logs the error
and re-raises it. -/
def saveJob (job : JobRecord) (tbl : List JobRecord) : Except DBError (List JobRecord) :=
  if tbl.any fun r => r.id == job.id then .error .integrityError
  else .ok (tbl ++ [job])

/-- Embeds `DatabaseManager.save_jobs_batch`: saves each job in order, counting the
successes; a per-job exception is caught, logged and skipped. -/
def saveJobsBatch (jobs : List JobRecord) (tbl : List JobRecord) : List JobRecord × ℕ :=
  jobs.foldl
    (fun acc j =>
      match saveJob j acc.1 with
      | .ok t => (t, acc.2 + 1)
      | .error _ => (acc.1, acc.2))
    (tbl, 0)

/-! ## C8: re-saving a job with an already-stored internal id -/

/-- A concrete job row. -/
def sampleJob : JobRecord :=
  { id := "uuid-42", company := "Acme", title := "Engineer", location := some "Austin, TX",
    work_location_type := some "Remote", level := some "Mid-Senior level",
    salary_range := some "$100,000 - $150,000", content := "Build data pipelines.",
    employment_type := some "Full-time", job_function := some "Engineering",
    industries := some "Software", posted_time := some "2 days ago",
    applicants := some "57", job_id := "ext-1001", date := some "2025-01-15",
    parsing_link := some "https://example.invalid/parse", job_posting_link := some "N/A",
    run_id := some 7, company_id := some "c-1", company_size := none,
    company_followers := none, company_industry := none, company_info_link := none }

/-- C8 counterexample: re-saving `sampleJob` into a table that already holds
the row with the same internal id raises `IntegrityError` — not the claimed
silent no-op with no error. -/
theorem C8_counterexample_resave_raises :
    saveJob sampleJob [sampleJob] = .error .integrityError := by
  decide

/-- C8 (amended): re-saving a job whose internal id is already stored leaves
the stored rows unchanged but raises `IntegrityError` from the PRIMARY KEY
constraint — there is no pre-insert equality check, and `save_job` re-raises
rather than silently succeeding; only `save_jobs_batch` swallows the error
(skipping the job, leaving the table unchanged and counting no save).  A
fresh internal id is appended. -/
theorem C8_resave_raises_integrityError (job : JobRecord) (tbl : List JobRecord) :
    ((tbl.any fun r => r.id == job.id) = true →
      saveJob job tbl = .error .integrityError ∧
      saveJobsBatch [job] tbl = (tbl, 0)) ∧
    ((tbl.any fun r => r.id == job.id) = false →
      saveJob job tbl = .ok (tbl ++ [job]) ∧
      saveJobsBatch [job] tbl = (tbl ++ [job], 1)) := by
  constructor
  · intro h
    have hs : saveJob job tbl = .error .integrityError := by
      unfold saveJob
      rw [if_pos h]
    refine ⟨hs, ?_⟩
    unfold saveJobsBatch
    simp only [List.foldl_cons, List.foldl_nil, hs]
  · intro h
    have hs : saveJob job tbl = .ok (tbl ++ [job]) := by
      unfold saveJob
      rw [if_neg (by simp [h])]
    refine ⟨hs, ?_⟩
    unfold saveJobsBatch
    simp only [List.foldl_cons, List.foldl_nil, hs]

/-- Witness for `C8_resave_raises_integrityError`: duplicate and fresh saves
of `sampleJob`. -/
theorem C8_resave_raises_integrityError_witness :
    (saveJob sampleJob [sampleJob] = .error .integrityError ∧
      saveJobsBatch [sampleJob] [sampleJob] = ([sampleJob], 0)) ∧
    (saveJob sampleJob [] = .ok [sampleJob] ∧
      saveJobsBatch [sampleJob] [] = ([sampleJob], 1)) :=
  ⟨(C8_resave_raises_integrityError sampleJob [sampleJob]).1 (by decide),
   (C8_resave_raises_integrityError sampleJob []).2 (by decide)⟩

/-! ## `linkedin_parser/company_enrichment.py` and `save_company` -/

/-- The `Company` dataclass fields persisted by `save_company`
(`linkedin_parser/models.py`); `id` is the UUID from `__post_init__`. -/
structure Company where
  company_name : String
  company_size : Option String
  followers : Option String
  industry : Option String
  company_url : Option String
  id : String
  deriving DecidableEq, Repr

/-- A row of the `companies` table. -/
structure CompanyRow where
  id : String
  company_name : String
  company_size : Option String
  followers : Option String
  industry : Option String
  company_url : Option String
  deriving DecidableEq, Repr

/-- Python truthiness of a nullable text column: `None` and `""` are falsy. -/
def truthy : Option String → Bool
  | none => false
  | some s => !(s == "")

/-- Embeds `DatabaseManager.get_company_by_name`. -/
def getCompanyByName (db : List CompanyRow) (name : String) : Option CompanyRow :=
  db.find? fun r => r.company_name == name

/-- Embeds `COALESCE(?, column)`: the new value when non-null, else the stored one. -/
def coalesce (newV oldV : Option String) : Option String :=
  match newV with
  | some v => some v
  | none => oldV

/-- Embeds `DatabaseManager.save_company`: if a row with the same name exists, merge
the non-null fields in with COALESCE semantics and return the existing id;
otherwise insert a new row and return the new id. -/
def saveCompany (c : Company) (db : List CompanyRow) : List CompanyRow × String :=
  match db.find? (fun r => r.company_name == c.company_name) with
  | some existing =>
    (db.map fun r =>
      if r.company_name == c.company_name then
        { r with company_size := coalesce c.company_size r.company_size,
                 followers := coalesce c.followers r.followers,
                 industry := coalesce c.industry r.industry,
                 company_url := coalesce c.company_url r.company_url }
      else r,
     existing.id)
  | none =>
    (db ++ [⟨c.id, c.company_name, c.company_size, c.followers, c.industry, c.company_url⟩],
     c.id)

/-- Embeds `CompanyEnrichmentResult`. -/
structure CompanyEnrichmentResult where
  company_id : String
  was_existing : Bool
  was_enriched : Bool
  error : Option String
  deriving DecidableEq, Repr

/-- Embeds `CompanyEnrichmentService._needs_enrichment`: a company is judged
enriched iff any of `company_size`, `followers`, `industry`, `company_url`
is truthy (so a present-but-empty string still "needs enrichment"). -/
def needsEnrichment (r : CompanyRow) : Bool :=
  !(truthy r.company_size || truthy r.followers || truthy r.industry || truthy r.company_url)

/-- The page context of a call: `none` is `job_soup=None`; `some pr` is a
soup whose `extract_company_info_from_job_page` parse (an external HTML
collaborator) returned `pr`. -/
abbrev PageContext := Option (Option Company)

/-- Embeds `CompanyEnrichmentService._enrich_existing_company`. -/
def enrichExistingCompany (existing : CompanyRow) (ctx : PageContext)
    (db : List CompanyRow) : List CompanyRow × CompanyEnrichmentResult :=
  match ctx with
  | some (some info) =>
    match saveCompany info db with
    | (db2, cid) => (db2, ⟨cid, true, true, none⟩)
  | some none => (db, ⟨existing.id, true, false, none⟩)
  | none => (db, ⟨existing.id, true, false, none⟩)

/-- Embeds `CompanyEnrichmentService._create_and_enrich_company`; `freshId` is the
UUID `Company.__post_init__` generates for the basic record. -/
def createAndEnrichCompany (name freshId : String) (ctx : PageContext)
    (db : List CompanyRow) : List CompanyRow × CompanyEnrichmentResult :=
  match ctx with
  | some (some info) =>
    match saveCompany info db with
    | (db2, cid) => (db2, ⟨cid, false, true, none⟩)
  | _ =>
    match saveCompany ⟨name, none, none, none, none, freshId⟩ db with
    | (db2, cid) => (db2, ⟨cid, false, false, none⟩)

/-- Embeds `CompanyEnrichmentService.get_or_enrich_company`: lookup by exact name;
an existing company judged enriched is returned as-is with
`was_enriched=false`; an under-enriched one goes through
`_enrich_existing_company`; a missing one through
`_create_and_enrich_company`. -/
def getOrEnrichCompany (db : List CompanyRow) (name freshId : String) (ctx : PageContext) :
    List CompanyRow × CompanyEnrichmentResult :=
  match getCompanyByName db name with
  | some existing =>
    if needsEnrichment existing then enrichExistingCompany existing ctx db
    else (db, ⟨existing.id, true, false, none⟩)
  | none => createAndEnrichCompany name freshId ctx db

/-! ## C9: enrichment idempotence -/

/-- A stored company whose `industry` is non-null but empty. -/
def acmeRow : CompanyRow := ⟨"c-1", "Acme", none, none, some "", none⟩

/-- A parser result extracted from a job page for the same company. -/
def acmeInfo : Company := ⟨"Acme", some "11-50 employees", none, none, none, "c-2"⟩

/-- C9 counterexample: `acmeRow.industry` is non-null (`some ""`), so by the
claim's definition the company counts as "already enriched" and any call
must return it as-is with `was_enriched = false`; but `_needs_enrichment`
tests Python truthiness, judges it under-enriched, and a call carrying page
context re-enriches it: `was_enriched = true` and the stored `company_size`
changes. -/
theorem C9_counterexample_empty_field_reenriched :
    acmeRow.industry ≠ none ∧
    (getOrEnrichCompany [acmeRow] "Acme" "c-3" (some (some acmeInfo))).2.was_enriched = true ∧
    (getOrEnrichCompany [acmeRow] "Acme" "c-3" (some (some acmeInfo))).1
      = [⟨"c-1", "Acme", some "11-50 employees", none, some "", none⟩] ∧
    (⟨"c-1", "Acme", some "11-50 employees", none, some "", none⟩ : CompanyRow) ≠ acmeRow := by
  decide

/-- C9 (amended): with "already enriched" read as the code's judgment — at
least one of size/followers/industry/company_url truthy, i.e. non-null *and*
non-empty — every call on such a stored company returns it as-is with
`was_enriched = false` and leaves the database unchanged, whatever page
context is supplied; and two successive calls with the same name and no page
context return `was_enriched = false` on the second call and do not modify
the database state left by the first. -/
theorem C9_enrichment_idempotent (db : List CompanyRow) (name freshId freshId2 : String)
    (ctx : PageContext) :
    (∀ row, getCompanyByName db name = some row → needsEnrichment row = false →
      getOrEnrichCompany db name freshId ctx = (db, ⟨row.id, true, false, none⟩)) ∧
    ((getOrEnrichCompany (getOrEnrichCompany db name freshId none).1 name freshId2 none).1
        = (getOrEnrichCompany db name freshId none).1 ∧
     (getOrEnrichCompany (getOrEnrichCompany db name freshId none).1 name
         freshId2 none).2.was_enriched = false) := by
  constructor
  · intro row hfind hne
    unfold getOrEnrichCompany
    rw [hfind]
    dsimp only
    rw [if_neg (by simp [hne])]
  · cases hfind : getCompanyByName db name with
    | some existing =>
      have h1 : getOrEnrichCompany db name freshId none = (db, ⟨existing.id, true, false, none⟩) := by
        unfold getOrEnrichCompany
        rw [hfind]
        dsimp only
        by_cases hne : needsEnrichment existing = true
        · rw [if_pos hne]
          rfl
        · rw [if_neg hne]
      rw [h1]
      dsimp only
      have h2 : ∀ fid, getOrEnrichCompany db name fid none = (db, ⟨existing.id, true, false, none⟩) := by
        intro fid
        unfold getOrEnrichCompany
        rw [hfind]
        dsimp only
        by_cases hne : needsEnrichment existing = true
        · rw [if_pos hne]
          rfl
        · rw [if_neg hne]
      rw [h2 freshId2]
      exact ⟨rfl, rfl⟩
    | none =>
      have hsave : saveCompany ⟨name, none, none, none, none, freshId⟩ db
          = (db ++ [⟨freshId, name, none, none, none, none⟩], freshId) := by
        unfold saveCompany
        rw [show (db.find? fun r => r.company_name == name) = none from hfind]
      have h1 : getOrEnrichCompany db name freshId none
          = (db ++ [⟨freshId, name, none, none, none, none⟩], ⟨freshId, false, false, none⟩) := by
        unfold getOrEnrichCompany createAndEnrichCompany
        rw [hfind]
        dsimp only
        rw [hsave]
      rw [h1]
      dsimp only
      have hfind2 : getCompanyByName (db ++ [⟨freshId, name, none, none, none, none⟩]) name
          = some ⟨freshId, name, none, none, none, none⟩ := by
        unfold getCompanyByName at hfind ⊢
        rw [List.find?_append, hfind]
        simp [List.find?]
      unfold getOrEnrichCompany
      rw [hfind2]
      dsimp only
      rw [if_pos (by rfl)]
      exact ⟨rfl, rfl⟩

/-- A fully enriched stored company. -/
def initechRow : CompanyRow :=
  ⟨"c-9", "Initech", some "501-1,000 employees", some "12,000 followers", some "Software", none⟩

/-- Witness for `C9_enrichment_idempotent`: a call on the already-enriched
`initechRow` — even with page context available — returns it unchanged with
`was_enriched = false`. -/
theorem C9_enrichment_idempotent_witness :
    getOrEnrichCompany [initechRow] "Initech" "c-10" (some (some acmeInfo))
      = ([initechRow], ⟨"c-9", true, false, none⟩) :=
  (C9_enrichment_idempotent [initechRow] "Initech" "c-10" "c-11" (some (some acmeInfo))).1
    initechRow (by decide) (by decide)

end GenaiJobFinder
